import Mathlib

/-!
Shallow embedding of the training/evaluation loop of `main0.py` (GRU-model
repository): dataset/model lookup, the 90/10 train/validation split, the
per-epoch train/test passes, metric aggregation (MAE, R2, MSE), best-model
tracking with the sentinel `best = 1000`, and the emission of the two CSV
reports.  Model architectures, the optimizer and the loss function are
out-of-scope black boxes; they are represented by opaque `predict`/`update`
functions carried in `MLAlg`.  Metric values are rationals; the only real
number in the development is the `np.sqrt` applied to MSE when the epoch
report is serialized.
-/

namespace GRU

/-- Errors the run can raise.  `configError` models the `ValueError` raised by
`get_dataset`/`get_model` on an unknown name (main0.py lines 47 and 104);
`emptyInput` models the `ValueError` raised by `np.hstack` on an empty
collection (lines 149-150 and 167-168); `nameError` models the `NameError`
on `targets_test` when the epoch loop never ran (line 266); `unassignedBest`
models the failure at lines 267-268 when `best_test`/`best_epoch` were never
assigned because no epoch improved on the sentinel. -/
inductive RunError
  | configError (msg : String)
  | emptyInput
  | nameError
  | unassignedBest
  deriving DecidableEq

/-- The out-of-scope collaborators: a model (black-box differentiable function
from a batch of fields to predictions, with mutable parameter state `P`) and
the optimizer+loss, absorbed into a single opaque per-batch parameter update.
`predict` is the forward pass `model(fields)` for one example; `update` is the
net effect on the parameters of one `loss.backward(); optimizer.step()`. -/
structure MLAlg (P F : Type) where
  predict : P → F → ℚ
  update : P → List (F × ℚ) → P

/-- Configuration surface of `main` (main0.py lines 176-185); learning rate,
weight decay and device act only through the opaque `MLAlg.update`. -/
structure Config where
  dataset_name : String
  model_name : String
  epoch : ℕ
  batch_size : ℕ
  deriving DecidableEq

/-- Absolute value on `ℚ`, written out so concrete runs evaluate inside the
kernel; `ratAbs_eq_abs` below identifies it with `|q|`. -/
def ratAbs (q : ℚ) : ℚ := if q < 0 then -q else q

/-- sklearn `mean_absolute_error`: mean of absolute differences. -/
def mean_absolute_error (t p : List ℚ) : ℚ :=
  (((t.zip p).map fun x => ratAbs (x.1 - x.2)).sum) / (t.length : ℚ)

/-- sklearn `mean_squared_error`: mean of squared differences. -/
def mean_squared_error (t p : List ℚ) : ℚ :=
  (((t.zip p).map fun x => (x.1 - x.2) ^ 2).sum) / (t.length : ℚ)

/-- Final branch of sklearn `r2_score` on the two sums of squares, with
sklearn's degenerate-case convention when all targets are identical
(`SS_tot = 0`): 1.0 if the residuals are also zero, else 0.0. -/
def r2FromSums (ssres sstot : ℚ) : ℚ :=
  if sstot = 0 then (if ssres = 0 then 1 else 0) else 1 - ssres / sstot

/-- sklearn `r2_score`: `1 - SS_res / SS_tot`. -/
def r2_score (t p : List ℚ) : ℚ :=
  let m := t.sum / (t.length : ℚ)
  let ssres := ((t.zip p).map fun x => (x.1 - x.2) ^ 2).sum
  let sstot := (t.map fun x => (x - m) ^ 2).sum
  r2FromSums ssres sstot

/-- Fuel-indexed chunking; the fuel is instantiated with the list length in
`chunks`, so the fuel-exhausted branch is never reached for positive `n`. -/
def chunksAux (n : ℕ) {α : Type} : ℕ → List α → List (List α)
  | _, [] => []
  | 0, _ :: _ => []
  | fuel + 1, a :: l => ((a :: l).take n) :: chunksAux n fuel ((a :: l).drop n)

/-- `DataLoader(dataset, batch_size=n)`: the dataset cut into consecutive
batches of size `n` (last batch possibly shorter), in dataset order
(`shuffle` is left at its default `False` in main0.py lines 198-201). -/
def chunks (n : ℕ) {α : Type} (l : List α) : List (List α) :=
  chunksAux n l.length l

/-- The observable per-batch actions of the training loop body, in the order
they appear in main0.py lines 136-142: forward pass, loss, `zero_grad`,
`backward`, `optimizer.step`. -/
inductive Event
  | evPredict
  | evLoss
  | evZeroGrad
  | evBackward
  | evStep
  deriving DecidableEq

/-- The five steps executed for each batch, in source order. -/
def perBatchEvents : List Event :=
  [Event.evPredict, Event.evLoss, Event.evZeroGrad, Event.evBackward, Event.evStep]

/-- The batch loop of `train` (main0.py lines 133-148): for each batch,
predictions are computed from the current parameters, the parameters are
updated once, and targets/predictions are collected in stream order.  Also
returns the event trace. -/
def trainPass {P F : Type} (alg : MLAlg P F) :
    P → List (List (F × ℚ)) → P × List Event × List ℚ × List ℚ
  | p, [] => (p, [], [], [])
  | p, b :: bs =>
    let preds := b.map fun ex => alg.predict p ex.1
    let tgts := b.map Prod.snd
    let rest := trainPass alg (alg.update p b) bs
    (rest.1, perBatchEvents ++ rest.2.1, tgts ++ rest.2.2.1, preds ++ rest.2.2.2)

/-- The batch loop of `test` (main0.py lines 159-165): under `eval()` and
`no_grad()` the parameters do not change, so the collected targets and
predictions are the flattened batches and the pointwise forward pass. -/
def evalOutputs {P F : Type} (alg : MLAlg P F) (p : P) (bs : List (List (F × ℚ))) :
    List ℚ × List ℚ :=
  ((bs.flatten).map Prod.snd, (bs.flatten).map fun ex => alg.predict p ex.1)

/-- The tail of `train`/`test` (main0.py lines 149-153 and 167-171):
`np.hstack` raises on an empty collection, otherwise the three sklearn
metrics are computed on the collected targets/predictions. -/
def aggregateOutputs (o : List ℚ × List ℚ) :
    Except RunError (ℚ × ℚ × ℚ × List ℚ × List ℚ) :=
  match o.1 with
  | [] => .error .emptyInput
  | _ :: _ =>
    .ok (mean_absolute_error o.1 o.2, r2_score o.1 o.2, mean_squared_error o.1 o.2,
      o.1, o.2)

/-- main0.py `train` (lines 128-153): one full training-mode pass, returning
the updated parameters, the aggregated metrics and the event trace. -/
def train {P F : Type} (alg : MLAlg P F) (p : P) (bs : List (List (F × ℚ))) :
    Except RunError (P × (ℚ × ℚ × ℚ × List ℚ × List ℚ) × List Event) :=
  let r := trainPass alg p bs
  match aggregateOutputs (r.2.2.1, r.2.2.2) with
  | .error er => .error er
  | .ok m => .ok (r.1, m, r.2.1)

/-- main0.py `test` (lines 156-171): one evaluation-mode pass. -/
def test {P F : Type} (alg : MLAlg P F) (p : P) (bs : List (List (F × ℚ))) :
    Except RunError (ℚ × ℚ × ℚ × List ℚ × List ℚ) :=
  aggregateOutputs (evalOutputs alg p bs)

/-- The Batch Runner's two modes (spec section 4.2): `train` mutates the
parameters, `test` runs with `model.eval()` under `torch.no_grad()`. -/
inductive Mode
  | training
  | evaluation
  deriving DecidableEq

/-- Uniform view of the Batch Runner: returns the (possibly updated)
parameters and the collected (targets, predictions). -/
def batchRunner {P F : Type} (alg : MLAlg P F) (p : P) (mode : Mode)
    (bs : List (List (F × ℚ))) : P × List ℚ × List ℚ :=
  match mode with
  | .training =>
    let r := trainPass alg p bs
    (r.1, r.2.2.1, r.2.2.2)
  | .evaluation =>
    let o := evalOutputs alg p bs
    (p, o.1, o.2)

/-- The values assigned together at main0.py lines 255-259 when an epoch
becomes the best: `best_epoch`, `best_test` (test predictions), `best_mae`
(test MAE), `best_train_mae`. -/
structure BestRecord where
  best_epoch : ℕ
  best_test : List ℚ
  best_mae : ℚ
  best_train_mae : ℚ
  deriving DecidableEq

/-- The Best-Model Tracker state: `best` is the variable `best` of main0.py
line 216 (sentinel 1000); `snapshot` is the durable storage at `save_path`
(a single overwritten file, hence an `Option`); `saves` counts `torch.save`
calls; `record` holds the best-epoch data, `none` until first assigned. -/
structure Tracker (P : Type) where
  best : ℚ
  snapshot : Option P
  saves : ℕ
  record : Option BestRecord
  deriving DecidableEq

/-- Initial tracker state (main0.py lines 216-218): `best = 1000`, nothing
saved, best-epoch data unassigned. -/
def initTracker {P : Type} : Tracker P :=
  { best := 1000, snapshot := none, saves := 0, record := none }

/-- One `observe` step of the Best-Model Tracker (main0.py lines 254-262):
on strict improvement over `best`, update `best`, persist the candidate
parameters (overwriting the snapshot), and record the best-epoch data;
otherwise change nothing.  Returns whether this epoch became the best. -/
def observe {P : Type} (s : Tracker P) (epoch_i : ℕ) (mae_val : ℚ) (candidate : P)
    (predicts_test : List ℚ) (mae_test mae_train : ℚ) : Tracker P × Bool :=
  if mae_val < s.best then
    ({ best := mae_val, snapshot := some candidate, saves := s.saves + 1,
       record := some ⟨epoch_i, predicts_test, mae_test, mae_train⟩ }, true)
  else (s, false)

/-- Feed a sequence of validation errors to the tracker (dummy payloads),
collecting the became-best outcomes. -/
def observeAll (s : Tracker Unit) (i : ℕ) : List ℚ → Tracker Unit × List Bool
  | [] => (s, [])
  | v :: vs =>
    let ob := observe s i v () [] 0 0
    let rest := observeAll ob.1 (i + 1) vs
    (rest.1, ob.2 :: rest.2)

/-- The per-epoch became-best outcomes for a validation-error sequence. -/
def observeSeq (vals : List ℚ) : List Bool :=
  (observeAll initTracker 0 vals).2

/-- The tracker state after a validation-error sequence. -/
def finalTracker (vals : List ℚ) : Tracker Unit :=
  (observeAll initTracker 0 vals).1

/-- The tracker's comparison threshold before epoch `i`: the minimum of the
sentinel 1000 and the validation errors of the earlier epochs. -/
def bestBefore (vals : List ℚ) (i : ℕ) : ℚ :=
  (vals.take i).foldl min 1000

/-- Modelled from the claim's words (C1): epoch `i` becomes the best iff its
validation MAE is strictly less than the lowest validation MAE seen at the
earlier epochs (vacuously satisfied at the first epoch). -/
def becameBestPerSpec (vals : List ℚ) (i : ℕ) : Prop :=
  ∀ j, j < i → vals.getD i 0 < vals.getD j 0

/-- One row of the in-memory per-epoch metric table `mae` (main0.py lines
237-252).  The source stores `np.sqrt(mse)` in the last three slots; here the
row keeps the exact MSE values and the square root is applied at CSV
serialization (`epochRowCells`), which is extensionally the same table. -/
structure EpochRow where
  epoch : ℕ
  mae_train : ℚ
  mae_val : ℚ
  mae_test : ℚ
  r2_train : ℚ
  r2_val : ℚ
  r2_test : ℚ
  mse_train : ℚ
  mse_val : ℚ
  mse_test : ℚ
  deriving DecidableEq

/-- The header written for the epoch report (main0.py line 272). -/
def epochHeaderCols : List String :=
  ["epoch", "mae_train", "mae_val", "mae_test", "r2_train", "r2_val", "r2_test",
   "rmse_train", "rmse_val", "rmse_test"]

/-- The ten cells of one epoch-report CSV row, in column order, with
`np.sqrt` (modelled as the real square root) applied to the MSE entries.
Noncomputable only because `Real.sqrt` is. -/
noncomputable def epochRowCells (r : EpochRow) : List ℝ :=
  [(r.epoch : ℝ), (r.mae_train : ℝ), (r.mae_val : ℝ), (r.mae_test : ℝ),
   (r.r2_train : ℝ), (r.r2_val : ℝ), (r.r2_test : ℝ),
   Real.sqrt (r.mse_train : ℝ), Real.sqrt (r.mse_val : ℝ), Real.sqrt (r.mse_test : ℝ)]

/-- The epoch-report CSV (main0.py lines 270-272): a header and the data
rows; written with `index=None`, so there is no index column. -/
structure EpochReportCsv where
  header : List String
  rows : List EpochRow
  deriving DecidableEq

/-- The prediction-report CSV (main0.py lines 266-268): header
`ground_truth, prediction`, the ground-truth column (last epoch's collected
test targets) and the prediction column (`best_test`), written with
`index=None` so there is no index column. -/
structure PredReport where
  header : List String
  ground_truth : List ℚ
  prediction : List ℚ
  deriving DecidableEq

/-- The mutable state threaded through the epoch loop of `main` (main0.py
lines 215-262): current parameters, the accumulated metric rows `mae`, the
tracker variables, and the last epoch's collected test targets
(`targets_test`, unassigned before the first epoch). -/
structure LoopState (P : Type) where
  params : P
  rows : List EpochRow
  tracker : Tracker P
  lastT : Option (List ℚ)
  deriving DecidableEq

/-- Loop state before the first epoch. -/
def initLoop {P : Type} (p0 : P) : LoopState P :=
  { params := p0, rows := [], tracker := initTracker, lastT := none }

/-- Everything the epoch loop reads but never writes: the model functions and
the three fixed batch streams (built once, before the loop). -/
structure RunEnv (P F : Type) where
  alg : MLAlg P F
  trB : List (List (F × ℚ))
  vaB : List (List (F × ℚ))
  teB : List (List (F × ℚ))
  p0 : P

/-- One iteration of the epoch loop (main0.py lines 219-262): a training
pass over the train split (its returned metrics are computed but unused),
evaluation passes over the three splits, one appended metric row, and one
tracker observation fed with the validation MAE and this epoch's test
outputs. -/
def epochBody {P F : Type} (env : RunEnv P F) (i : ℕ) (st : LoopState P) :
    Except RunError (LoopState P) :=
  match train env.alg st.params env.trB with
  | .error er => .error er
  | .ok tr0 =>
    let p1 := tr0.1
    match test env.alg p1 env.trB with
    | .error er => .error er
    | .ok (mae_train, r2_train, mse_train, _, _) =>
      match test env.alg p1 env.vaB with
      | .error er => .error er
      | .ok (mae_val, r2_val, mse_val, _, _) =>
        match test env.alg p1 env.teB with
        | .error er => .error er
        | .ok (mae_test, r2_test, mse_test, targets_test, predicts_test) =>
          .ok { params := p1,
                rows := st.rows ++ [⟨i, mae_train, mae_val, mae_test,
                  r2_train, r2_val, r2_test, mse_train, mse_val, mse_test⟩],
                tracker := (observe st.tracker i mae_val p1 predicts_test
                  mae_test mae_train).1,
                lastT := some targets_test }

/-- The epoch loop `for epoch_i in range(epoch)` run from epoch `i` for `n`
more epochs; any error aborts the run. -/
def runFrom {P F : Type} (env : RunEnv P F) : ℕ → ℕ → LoopState P →
    Except RunError (LoopState P)
  | _, 0, st => .ok st
  | i, n + 1, st =>
    match epochBody env i st with
    | .error er => .error er
    | .ok st1 => runFrom env (i + 1) n st1

/-- Emission of the prediction report (main0.py lines 266-268): referencing
`targets_test` fails if the loop never ran; building the prediction column
from `best_test` (and the file name from `best_epoch`) fails if no epoch was
ever recorded as best.  Returns the report and the best record it used. -/
def emitPredReport {P : Type} (st : LoopState P) :
    Except RunError (PredReport × BestRecord) :=
  match st.lastT with
  | none => .error .nameError
  | some tgts =>
    match st.tracker.record with
    | none => .error .unassignedBest
    | some r =>
      .ok ({ header := ["ground_truth", "prediction"], ground_truth := tgts,
             prediction := r.best_test }, r)

/-- The observable outcome of a completed run: the split actually used, the
two emitted CSV artifacts, the best record, and the durable-storage state. -/
structure RunResult (P F : Type) where
  trainSplit : List (F × ℚ)
  validSplit : List (F × ℚ)
  epochCsv : EpochReportCsv
  predCsv : PredReport
  bestRec : BestRecord
  snapshot : Option P
  saves : ℕ
  finalParams : P

/-- The dataset names recognized by `get_dataset` (main0.py lines 35-47). -/
def datasetNames : List String :=
  ["movielens1M", "movielens20M", "criteo", "avazu", "fuxtower"]

/-- main0.py `get_dataset` (lines 35-47): dispatch on the dataset name,
raising `ValueError('unknown dataset name: ' + name)` otherwise.  The dataset
contents are the out-of-scope reader, passed through unchanged. -/
def get_dataset {F : Type} (name : String) (data : List (F × ℚ)) :
    Except RunError (List (F × ℚ)) :=
  if name = "movielens1M" then .ok data
  else if name = "movielens20M" then .ok data
  else if name = "criteo" then .ok data
  else if name = "avazu" then .ok data
  else if name = "fuxtower" then .ok data
  else .error (.configError ("unknown dataset name: " ++ name))

/-- The model names recognized by `get_model` (main0.py lines 50-104). -/
def modelNames : List String :=
  ["dnn", "rnn", "lr", "fm", "hofm", "ffm", "fnn", "wd", "ipnn", "opnn", "dcn",
   "nfm", "ncf", "fnfm", "dfm", "xdfm", "afm", "afi", "afn"]

/-- main0.py `get_model` (lines 50-104): dispatch on the model name, raising
`ValueError('unknown model name: ' + name)` otherwise.  The architectures
are out-of-scope; the black-box `MLAlg` is passed through unchanged. -/
def get_model {P F : Type} (name : String) (alg : MLAlg P F) :
    Except RunError (MLAlg P F) :=
  if name ∈ modelNames then .ok alg
  else .error (.configError ("unknown model name: " ++ name))

/-- The 90/10 split (main0.py lines 192-196): `torch.utils.data.random_split`
draws a random permutation (modelled by the opaque `perm`) and cuts it at
`train_length = int(len * 0.9)`.  For the dataset sizes in scope Python's
`int(N * 0.9)` under double rounding equals `9 * N / 10` in integer
division. -/
def splitData {E : Type} (perm : List E → List E) (data : List E) :
    List E × List E :=
  let l := perm data
  (l.take (9 * data.length / 10), l.drop (9 * data.length / 10))

/-- The loop environment built by `main` before the epoch loop: the split is
performed once (main0.py lines 192-196), then the three `DataLoader`s are
created (lines 198-201). -/
def mkEnv {P F : Type} (alg : MLAlg P F) (cfg : Config)
    (trainData testData : List (F × ℚ)) (perm : List (F × ℚ) → List (F × ℚ))
    (p0 : P) : RunEnv P F :=
  { alg := alg,
    trB := chunks cfg.batch_size (splitData perm trainData).1,
    vaB := chunks cfg.batch_size (splitData perm trainData).2,
    teB := chunks cfg.batch_size testData,
    p0 := p0 }

/-- main0.py `main` (lines 176-272): dataset lookups, split, model lookup,
the epoch loop, then emission of the prediction report followed by the epoch
report.  A failed run produces no report artifacts. -/
def main {P F : Type} (alg : MLAlg P F) (cfg : Config)
    (trainData testData : List (F × ℚ)) (perm : List (F × ℚ) → List (F × ℚ))
    (p0 : P) : Except RunError (RunResult P F) :=
  match get_dataset cfg.dataset_name trainData with
  | .error er => .error er
  | .ok dataset_train =>
    match get_dataset cfg.dataset_name testData with
    | .error er => .error er
    | .ok dataset_test =>
      match get_model cfg.model_name alg with
      | .error er => .error er
      | .ok alg2 =>
        match runFrom (mkEnv alg2 cfg dataset_train dataset_test perm p0) 0
            cfg.epoch (initLoop p0) with
        | .error er => .error er
        | .ok st =>
          match emitPredReport st with
          | .error er => .error er
          | .ok pr =>
            .ok { trainSplit := (splitData perm dataset_train).1,
                  validSplit := (splitData perm dataset_train).2,
                  epochCsv := { header := epochHeaderCols, rows := st.rows },
                  predCsv := pr.1, bestRec := pr.2,
                  snapshot := st.tracker.snapshot, saves := st.tracker.saves,
                  finalParams := st.params }

/-- Parameters after `k` completed epochs: `k` iterations of the per-epoch
training pass over the fixed training batches. -/
def pAt {P F : Type} (env : RunEnv P F) (k : ℕ) : P :=
  (fun p => (trainPass env.alg p env.trB).1)^[k] env.p0

/-- Evaluation outputs on the train split after epoch `i` finished training. -/
def evalTrAt {P F : Type} (env : RunEnv P F) (i : ℕ) : List ℚ × List ℚ :=
  evalOutputs env.alg (pAt env (i + 1)) env.trB

/-- Evaluation outputs on the validation split after epoch `i`. -/
def evalVaAt {P F : Type} (env : RunEnv P F) (i : ℕ) : List ℚ × List ℚ :=
  evalOutputs env.alg (pAt env (i + 1)) env.vaB

/-- Evaluation outputs on the test split after epoch `i`. -/
def evalTeAt {P F : Type} (env : RunEnv P F) (i : ℕ) : List ℚ × List ℚ :=
  evalOutputs env.alg (pAt env (i + 1)) env.teB

/-- Train-split MAE reported for epoch `i`. -/
def maeTrAt {P F : Type} (env : RunEnv P F) (i : ℕ) : ℚ :=
  mean_absolute_error (evalTrAt env i).1 (evalTrAt env i).2

/-- Train-split R2 reported for epoch `i`. -/
def r2TrAt {P F : Type} (env : RunEnv P F) (i : ℕ) : ℚ :=
  r2_score (evalTrAt env i).1 (evalTrAt env i).2

/-- Train-split MSE reported for epoch `i`. -/
def mseTrAt {P F : Type} (env : RunEnv P F) (i : ℕ) : ℚ :=
  mean_squared_error (evalTrAt env i).1 (evalTrAt env i).2

/-- Validation-split MAE reported for epoch `i`. -/
def maeVaAt {P F : Type} (env : RunEnv P F) (i : ℕ) : ℚ :=
  mean_absolute_error (evalVaAt env i).1 (evalVaAt env i).2

/-- Validation-split R2 reported for epoch `i`. -/
def r2VaAt {P F : Type} (env : RunEnv P F) (i : ℕ) : ℚ :=
  r2_score (evalVaAt env i).1 (evalVaAt env i).2

/-- Validation-split MSE reported for epoch `i`. -/
def mseVaAt {P F : Type} (env : RunEnv P F) (i : ℕ) : ℚ :=
  mean_squared_error (evalVaAt env i).1 (evalVaAt env i).2

/-- Test-split MAE reported for epoch `i`. -/
def maeTeAt {P F : Type} (env : RunEnv P F) (i : ℕ) : ℚ :=
  mean_absolute_error (evalTeAt env i).1 (evalTeAt env i).2

/-- Test-split R2 reported for epoch `i`. -/
def r2TeAt {P F : Type} (env : RunEnv P F) (i : ℕ) : ℚ :=
  r2_score (evalTeAt env i).1 (evalTeAt env i).2

/-- Test-split MSE reported for epoch `i`. -/
def mseTeAt {P F : Type} (env : RunEnv P F) (i : ℕ) : ℚ :=
  mean_squared_error (evalTeAt env i).1 (evalTeAt env i).2

/-- Test predictions collected at epoch `i`. -/
def tePredsAt {P F : Type} (env : RunEnv P F) (i : ℕ) : List ℚ :=
  (evalTeAt env i).2

/-- Test targets collected at any epoch (independent of the parameters). -/
def teTgtsAt {P F : Type} (env : RunEnv P F) : List ℚ :=
  ((env.teB).flatten).map Prod.snd

/-- The metric row appended for epoch `i`. -/
def rowAt {P F : Type} (env : RunEnv P F) (i : ℕ) : EpochRow :=
  ⟨i, maeTrAt env i, maeVaAt env i, maeTeAt env i,
   r2TrAt env i, r2VaAt env i, r2TeAt env i,
   mseTrAt env i, mseVaAt env i, mseTeAt env i⟩

/-- The tracker state after the first `k` epochs of the run. -/
def trackerAt {P F : Type} (env : RunEnv P F) : ℕ → Tracker P
  | 0 => initTracker
  | k + 1 =>
    (observe (trackerAt env k) k (maeVaAt env k) (pAt env (k + 1))
      (tePredsAt env k) (maeTeAt env k) (maeTrAt env k)).1

/-- The full loop state after the first `k` epochs of the run. -/
def stateAt {P F : Type} (env : RunEnv P F) (k : ℕ) : LoopState P :=
  { params := pAt env k,
    rows := (List.range k).map (rowAt env),
    tracker := trackerAt env k,
    lastT := if k = 0 then none else some (teTgtsAt env) }

/-- Concrete model used by the witnesses: predicts 0 everywhere, parameters
never change. -/
def wAlg : MLAlg Unit Unit :=
  { predict := fun _ _ => 0, update := fun _ _ => () }

/-- Witness configuration: recognized names, one epoch, batch size 100. -/
def wCfg : Config :=
  { dataset_name := "fuxtower", model_name := "rnn", epoch := 1, batch_size := 100 }

/-- Witness training data: ten examples with target 1. -/
def wTrain : List (Unit × ℚ) := List.replicate 10 ((), 1)

/-- Witness test data: one example with target 1. -/
def wTest : List (Unit × ℚ) := [((), 1)]

/-- Witness run environment (targets 1, so validation MAE 1 < 1000). -/
def envG : RunEnv Unit Unit := mkEnv wAlg wCfg wTrain wTest id ()

/-- The metric row of the witness run. -/
def rowG : EpochRow := ⟨0, 1, 1, 1, 0, 0, 0, 1, 1, 1⟩

/-- The loop state after the witness run's single epoch. -/
def stG : LoopState Unit :=
  { params := (), rows := [rowG],
    tracker := { best := 1, snapshot := some (), saves := 1,
                 record := some ⟨0, [0], 1, 1⟩ },
    lastT := some [1] }

/-- The prediction report of the witness run. -/
def wPred : PredReport :=
  { header := ["ground_truth", "prediction"], ground_truth := [1], prediction := [0] }

/-- The full result of the witness run. -/
def wRes : RunResult Unit Unit :=
  { trainSplit := List.replicate 9 ((), 1), validSplit := [((), 1)],
    epochCsv := { header := epochHeaderCols, rows := [rowG] },
    predCsv := wPred, bestRec := ⟨0, [0], 1, 1⟩,
    snapshot := some (), saves := 1, finalParams := () }

/-- Training data for the sentinel-edge witness: targets 2000, so every
validation MAE is 2000, never below the sentinel 1000. -/
def wTrainB : List (Unit × ℚ) := List.replicate 10 ((), 2000)

/-- Test data for the sentinel-edge witness. -/
def wTestB : List (Unit × ℚ) := [((), 2000)]

/-- Sentinel-edge run environment. -/
def envB : RunEnv Unit Unit := mkEnv wAlg wCfg wTrainB wTestB id ()

/-- The metric row of the sentinel-edge run. -/
def rowB : EpochRow := ⟨0, 2000, 2000, 2000, 0, 0, 0, 4000000, 4000000, 4000000⟩

/-- The loop state after the sentinel-edge run's single epoch: the tracker
never fired. -/
def stB : LoopState Unit :=
  { params := (), rows := [rowB], tracker := initTracker, lastT := some [2000] }

/-- A configuration with an unrecognized dataset name. -/
def wBadCfg : Config :=
  { dataset_name := "imagenet", model_name := "rnn", epoch := 1, batch_size := 100 }

/-- A configuration with an unrecognized model name. -/
def wBadModelCfg : Config :=
  { dataset_name := "fuxtower", model_name := "transformer", epoch := 1, batch_size := 100 }

theorem ratAbs_eq_abs (q : ℚ) : ratAbs q = |q| := by
  rw [ratAbs]
  split_ifs with h
  · exact (abs_of_neg h).symm
  · exact (abs_of_nonneg (not_lt.mp h)).symm

theorem chunksAux_flatten {α : Type} (n : ℕ) (hn : n ≠ 0) :
    ∀ (fuel : ℕ) (l : List α), l.length ≤ fuel → (chunksAux n fuel l).flatten = l := by
  intro fuel
  induction fuel with
  | zero =>
    intro l hl
    cases l with
    | nil => simp [chunksAux]
    | cons a t => simp at hl
  | succ fuel ih =>
    intro l hl
    cases l with
    | nil => simp [chunksAux]
    | cons a t =>
      show ((a :: t).take n :: chunksAux n fuel ((a :: t).drop n)).flatten = a :: t
      have hd : ((a :: t).drop n).length ≤ fuel := by
        simp only [List.length_drop, List.length_cons]
        simp only [List.length_cons] at hl
        omega
      rw [List.flatten_cons, ih ((a :: t).drop n) hd]
      exact List.take_append_drop n (a :: t)

theorem chunks_flatten {α : Type} (n : ℕ) (hn : n ≠ 0) (l : List α) :
    (chunks n l).flatten = l :=
  chunksAux_flatten n hn l.length l le_rfl

theorem chunksAux_zero_flatten {α : Type} :
    ∀ (fuel : ℕ) (l : List α), (chunksAux 0 fuel l).flatten = [] := by
  intro fuel
  induction fuel with
  | zero =>
    intro l
    cases l with
    | nil => simp [chunksAux]
    | cons a t => simp [chunksAux]
  | succ fuel ih =>
    intro l
    cases l with
    | nil => simp [chunksAux]
    | cons a t =>
      show (((a :: t).take 0) :: chunksAux 0 fuel ((a :: t).drop 0)).flatten = []
      rw [List.flatten_cons]
      simp [ih]

theorem chunks_flatten_of_ne {α : Type} (n : ℕ) (l : List α)
    (h : (chunks n l).flatten ≠ []) : (chunks n l).flatten = l := by
  cases n with
  | zero => exact absurd (chunksAux_zero_flatten l.length l) h
  | succ m => exact chunks_flatten (m + 1) (Nat.succ_ne_zero m) l

theorem trainPass_fst {P F : Type} (alg : MLAlg P F) (bs : List (List (F × ℚ))) :
    ∀ p, (trainPass alg p bs).1 = bs.foldl alg.update p := by
  induction bs with
  | nil => intro p; rfl
  | cons b bs ih => intro p; simp [trainPass, ih]

theorem trainPass_targets {P F : Type} (alg : MLAlg P F) (bs : List (List (F × ℚ))) :
    ∀ p, (trainPass alg p bs).2.2.1 = (bs.flatten).map Prod.snd := by
  induction bs with
  | nil => intro p; rfl
  | cons b bs ih => intro p; simp [trainPass, ih]

theorem trainPass_events {P F : Type} (alg : MLAlg P F) (bs : List (List (F × ℚ))) :
    ∀ p, (trainPass alg p bs).2.1 = (bs.map fun _ => perBatchEvents).flatten := by
  induction bs with
  | nil => intro p; rfl
  | cons b bs ih => intro p; simp [trainPass, ih]

theorem trainPass_count_step {P F : Type} (alg : MLAlg P F) (bs : List (List (F × ℚ)))
    (p : P) : ((trainPass alg p bs).2.1).count Event.evStep = bs.length := by
  rw [trainPass_events]
  induction bs with
  | nil => rfl
  | cons b bs ih => simpa [perBatchEvents, List.count_append] using ih

theorem pAt_zero {P F : Type} (env : RunEnv P F) : pAt env 0 = env.p0 := rfl

theorem pAt_succ {P F : Type} (env : RunEnv P F) (k : ℕ) :
    pAt env (k + 1) = (trainPass env.alg (pAt env k) env.trB).1 :=
  Function.iterate_succ_apply' _ _ _

theorem stateAt_zero {P F : Type} (env : RunEnv P F) :
    stateAt env 0 = initLoop env.p0 := rfl

theorem observe_lt {P : Type} (s : Tracker P) (i : ℕ) (v : ℚ) (c : P)
    (pt : List ℚ) (mt mtr : ℚ) (h : v < s.best) :
    observe s i v c pt mt mtr =
      ({ best := v, snapshot := some c, saves := s.saves + 1,
         record := some ⟨i, pt, mt, mtr⟩ }, true) := by
  simp [observe, h]

theorem observe_not_lt {P : Type} (s : Tracker P) (i : ℕ) (v : ℚ) (c : P)
    (pt : List ℚ) (mt mtr : ℚ) (h : ¬ v < s.best) :
    observe s i v c pt mt mtr = (s, false) := by
  simp [observe, h]

theorem observe_fst_best {P : Type} (s : Tracker P) (i : ℕ) (v : ℚ) (c : P)
    (pt : List ℚ) (mt mtr : ℚ) :
    ((observe s i v c pt mt mtr).1).best = min s.best v := by
  by_cases h : v < s.best
  · rw [observe_lt s i v c pt mt mtr h]
    exact (min_eq_right (le_of_lt h)).symm
  · rw [observe_not_lt s i v c pt mt mtr h]
    exact (min_eq_left (not_lt.mp h)).symm

theorem observeAll_getD (vals : List ℚ) :
    ∀ (s : Tracker Unit) (i k : ℕ), k < vals.length →
      ((observeAll s i vals).2.getD k false = true ↔
        vals.getD k 0 < (vals.take k).foldl min s.best) := by
  induction vals with
  | nil =>
    intro s i k hk
    simp at hk
  | cons v vs ih =>
    intro s i k hk
    cases k with
    | zero =>
      show ((observeAll s i (v :: vs)).2.getD 0 false = true ↔ _)
      by_cases hv : v < s.best
      · simp [observeAll, observe_lt s i v () [] 0 0 hv, hv]
      · simp [observeAll, observe_not_lt s i v () [] 0 0 hv, hv]
    | succ k =>
      have hk2 : k < vs.length := by simpa using hk
      have hb : ((observe s i v () [] 0 0).1).best = min s.best v :=
        observe_fst_best s i v () [] 0 0
      have step : (observeAll s i (v :: vs)).2.getD (k + 1) false =
          (observeAll (observe s i v () [] 0 0).1 (i + 1) vs).2.getD k false := by
        simp [observeAll]
      rw [step, ih ((observe s i v () [] 0 0).1) (i + 1) k hk2, hb]
      simp [List.take_succ_cons]

theorem aggregateOutputs_ok (o : List ℚ × List ℚ) (h : o.1 ≠ []) :
    aggregateOutputs o = .ok (mean_absolute_error o.1 o.2, r2_score o.1 o.2,
      mean_squared_error o.1 o.2, o.1, o.2) := by
  rcases o with ⟨o1, o2⟩
  cases o1 with
  | nil => exact absurd rfl h
  | cons a t => rfl

theorem test_ok {P F : Type} (alg : MLAlg P F) (p : P) (bs : List (List (F × ℚ)))
    (h : bs.flatten ≠ []) :
    test alg p bs = .ok
      (mean_absolute_error ((bs.flatten).map Prod.snd)
        ((bs.flatten).map fun ex => alg.predict p ex.1),
       r2_score ((bs.flatten).map Prod.snd)
        ((bs.flatten).map fun ex => alg.predict p ex.1),
       mean_squared_error ((bs.flatten).map Prod.snd)
        ((bs.flatten).map fun ex => alg.predict p ex.1),
       (bs.flatten).map Prod.snd,
       (bs.flatten).map fun ex => alg.predict p ex.1) := by
  have h1 : ((bs.flatten).map (Prod.snd : F × ℚ → ℚ)) ≠ [] := by
    simpa using h
  exact aggregateOutputs_ok _ h1

theorem train_ok {P F : Type} (alg : MLAlg P F) (p : P) (bs : List (List (F × ℚ)))
    (h : bs.flatten ≠ []) :
    train alg p bs = .ok ((trainPass alg p bs).1,
      (mean_absolute_error (trainPass alg p bs).2.2.1 (trainPass alg p bs).2.2.2,
       r2_score (trainPass alg p bs).2.2.1 (trainPass alg p bs).2.2.2,
       mean_squared_error (trainPass alg p bs).2.2.1 (trainPass alg p bs).2.2.2,
       (trainPass alg p bs).2.2.1, (trainPass alg p bs).2.2.2),
      (trainPass alg p bs).2.1) := by
  have h1 : (trainPass alg p bs).2.2.1 ≠ [] := by
    rw [trainPass_targets]
    simpa using h
  simp only [train, aggregateOutputs_ok ((trainPass alg p bs).2.2.1,
    (trainPass alg p bs).2.2.2) h1]

theorem epochBody_stateAt {P F : Type} (env : RunEnv P F)
    (hTr : env.trB.flatten ≠ []) (hVa : env.vaB.flatten ≠ [])
    (hTe : env.teB.flatten ≠ []) (i : ℕ) :
    epochBody env i (stateAt env i) = .ok (stateAt env (i + 1)) := by
  have hp : (stateAt env i).params = pAt env i := rfl
  have hps := (pAt_succ env i).symm
  simp only [epochBody, hp, train_ok env.alg (pAt env i) env.trB hTr]
  rw [hps]
  rw [test_ok env.alg (pAt env (i + 1)) env.trB hTr,
      test_ok env.alg (pAt env (i + 1)) env.vaB hVa,
      test_ok env.alg (pAt env (i + 1)) env.teB hTe]
  simp only [stateAt, trackerAt, List.range_succ, List.map_append, List.map_cons,
    List.map_nil, rowAt, maeTrAt, maeVaAt, maeTeAt, r2TrAt, r2VaAt, r2TeAt,
    mseTrAt, mseVaAt, mseTeAt, evalTrAt, evalVaAt, evalTeAt, evalOutputs,
    tePredsAt, teTgtsAt]
  simp

theorem runFrom_stateAt {P F : Type} (env : RunEnv P F)
    (hTr : env.trB.flatten ≠ []) (hVa : env.vaB.flatten ≠ [])
    (hTe : env.teB.flatten ≠ []) :
    ∀ (m j : ℕ), runFrom env j m (stateAt env j) = .ok (stateAt env (j + m)) := by
  intro m
  induction m with
  | zero => intro j; rfl
  | succ m ih =>
    intro j
    rw [runFrom, epochBody_stateAt env hTr hVa hTe j]
    show runFrom env (j + 1) m (stateAt env (j + 1)) = _
    have harith : j + 1 + m = j + (m + 1) := by omega
    rw [ih (j + 1), harith]

theorem test_ok_flatten_ne {P F : Type} (alg : MLAlg P F) (p : P)
    (bs : List (List (F × ℚ))) (x : ℚ × ℚ × ℚ × List ℚ × List ℚ)
    (h : test alg p bs = .ok x) : bs.flatten ≠ [] := by
  intro hnil
  rw [test, evalOutputs, hnil] at h
  simp [aggregateOutputs] at h

theorem train_ok_flatten_ne {P F : Type} (alg : MLAlg P F) (p : P)
    (bs : List (List (F × ℚ))) (x : P × (ℚ × ℚ × ℚ × List ℚ × List ℚ) × List Event)
    (h : train alg p bs = .ok x) : bs.flatten ≠ [] := by
  intro hnil
  have ht : (trainPass alg p bs).2.2.1 = [] := by
    rw [trainPass_targets, hnil]
    rfl
  rw [train] at h
  rw [show ((trainPass alg p bs).2.2.1, (trainPass alg p bs).2.2.2).1 =
    (trainPass alg p bs).2.2.1 from rfl] at h
  simp [aggregateOutputs, ht] at h

theorem epochBody_ok_nonempty {P F : Type} (env : RunEnv P F) (i : ℕ)
    (st st1 : LoopState P) (h : epochBody env i st = .ok st1) :
    env.trB.flatten ≠ [] ∧ env.vaB.flatten ≠ [] ∧ env.teB.flatten ≠ [] := by
  rw [epochBody] at h
  split at h
  · exact absurd h (by simp)
  case _ tr0 heqtr =>
    dsimp only at h
    split at h
    · exact absurd h (by simp)
    case _ x heq1 =>
      split at h
      · exact absurd h (by simp)
      case _ y heq2 =>
        split at h
        · exact absurd h (by simp)
        case _ z heq3 =>
          exact ⟨train_ok_flatten_ne env.alg st.params env.trB tr0 heqtr,
            test_ok_flatten_ne env.alg tr0.1 env.vaB _ heq2,
            test_ok_flatten_ne env.alg tr0.1 env.teB _ heq3⟩

theorem runFrom_ok_nonempty {P F : Type} (env : RunEnv P F) (i n : ℕ)
    (st st2 : LoopState P) (h : runFrom env i (n + 1) st = .ok st2) :
    env.trB.flatten ≠ [] ∧ env.vaB.flatten ≠ [] ∧ env.teB.flatten ≠ [] := by
  rw [runFrom] at h
  split at h
  · exact absurd h (by simp)
  case _ st1 heq => exact epochBody_ok_nonempty env i st st1 heq

theorem trackerAt_inv {P F : Type} (env : RunEnv P F) (k : ℕ) :
    ((∀ i, i < k → 1000 ≤ maeVaAt env i) ∧ trackerAt env k = initTracker)
    ∨ (∃ r, (trackerAt env k).record = some r ∧
        (trackerAt env k).snapshot = some (pAt env (r.best_epoch + 1)) ∧
        1 ≤ (trackerAt env k).saves ∧
        r.best_epoch < k ∧
        maeVaAt env r.best_epoch = (trackerAt env k).best ∧
        (trackerAt env k).best < 1000 ∧
        (∀ j, j < r.best_epoch → (trackerAt env k).best < maeVaAt env j) ∧
        (∀ j, j < k → (trackerAt env k).best ≤ maeVaAt env j) ∧
        r.best_test = tePredsAt env r.best_epoch ∧
        r.best_mae = maeTeAt env r.best_epoch ∧
        r.best_train_mae = maeTrAt env r.best_epoch) := by
  induction k with
  | zero =>
    left
    exact ⟨fun i hi => absurd hi (Nat.not_lt_zero i), rfl⟩
  | succ k ih =>
    by_cases hv : maeVaAt env k < (trackerAt env k).best
    · right
      have ht : trackerAt env (k + 1) =
          { best := maeVaAt env k, snapshot := some (pAt env (k + 1)),
            saves := (trackerAt env k).saves + 1,
            record := some ⟨k, tePredsAt env k, maeTeAt env k, maeTrAt env k⟩ } := by
        show (observe (trackerAt env k) k (maeVaAt env k) (pAt env (k + 1))
          (tePredsAt env k) (maeTeAt env k) (maeTrAt env k)).1 = _
        rw [observe_lt _ _ _ _ _ _ _ hv]
      have hlt1000 : maeVaAt env k < 1000 := by
        rcases ih with ⟨_, hinit⟩ | ⟨r, _, _, _, _, _, hb1000, _, hle, _, _, _⟩
        · rw [hinit] at hv
          exact hv
        · exact lt_trans hv hb1000
      have hstrict : ∀ j, j < k → maeVaAt env k < maeVaAt env j := by
        intro j hj
        rcases ih with ⟨hge, _⟩ | ⟨r, _, _, _, _, _, _, _, hle, _, _, _⟩
        · exact lt_of_lt_of_le hlt1000 (hge j hj)
        · exact lt_of_lt_of_le hv (hle j hj)
      refine ⟨⟨k, tePredsAt env k, maeTeAt env k, maeTrAt env k⟩, ?_, ?_, ?_, ?_, ?_, ?_, ?_, ?_, rfl, rfl, rfl⟩
      · rw [ht]
      · rw [ht]
      · rw [ht]
        exact Nat.le_add_left 1 _
      · exact Nat.lt_succ_self k
      · rw [ht]
      · rw [ht]
        exact hlt1000
      · intro j hj
        rw [ht]
        exact hstrict j hj
      · intro j hj
        rw [ht]
        rcases Nat.lt_succ_iff_lt_or_eq.mp hj with hjk | hjk
        · exact le_of_lt (hstrict j hjk)
        · subst hjk
          exact le_refl _
    · have ht : trackerAt env (k + 1) = trackerAt env k := by
        show (observe (trackerAt env k) k (maeVaAt env k) (pAt env (k + 1))
          (tePredsAt env k) (maeTeAt env k) (maeTrAt env k)).1 = _
        rw [observe_not_lt _ _ _ _ _ _ _ hv]
      rcases ih with ⟨hge, hinit⟩ | ⟨r, h1, h2, h3, h4, h5, h6, h7, h8, h9, h10, h11⟩
      · left
        refine ⟨fun i hi => ?_, ht.trans hinit⟩
        rcases Nat.lt_succ_iff_lt_or_eq.mp hi with hik | hik
        · exact hge i hik
        · subst hik
          rw [hinit] at hv
          exact not_lt.mp hv
      · right
        refine ⟨r, ?_, ?_, ?_, Nat.lt_succ_of_lt h4, ?_, ?_, ?_, ?_, h9, h10, h11⟩
        · rw [ht]
          exact h1
        · rw [ht]
          exact h2
        · rw [ht]
          exact h3
        · rw [ht]
          exact h5
        · rw [ht]
          exact h6
        · intro j hj
          rw [ht]
          exact h7 j hj
        · intro j hj
          rw [ht]
          rcases Nat.lt_succ_iff_lt_or_eq.mp hj with hjk | hjk
          · exact h8 j hjk
          · subst hjk
            exact not_lt.mp hv

theorem get_dataset_mem {F : Type} (name : String) (data : List (F × ℚ))
    (h : name ∈ datasetNames) : get_dataset name data = .ok data := by
  fin_cases h <;> rfl

theorem get_dataset_not_mem {F : Type} (name : String) (data : List (F × ℚ))
    (h : name ∉ datasetNames) :
    get_dataset name data = .error (.configError ("unknown dataset name: " ++ name)) := by
  simp only [datasetNames, List.mem_cons, List.not_mem_nil, or_false, not_or] at h
  obtain ⟨h1, h2, h3, h4, h5⟩ := h
  rw [get_dataset, if_neg h1, if_neg h2, if_neg h3, if_neg h4, if_neg h5]

theorem get_dataset_ok {F : Type} {name : String} {data d : List (F × ℚ)}
    (h : get_dataset name data = .ok d) : d = data := by
  rw [get_dataset] at h
  split_ifs at h <;> exact (Except.ok.inj h).symm

theorem get_model_mem {P F : Type} (name : String) (alg : MLAlg P F)
    (h : name ∈ modelNames) : get_model name alg = .ok alg := by
  rw [get_model, if_pos h]

theorem get_model_not_mem {P F : Type} (name : String) (alg : MLAlg P F)
    (h : name ∉ modelNames) :
    get_model name alg = .error (.configError ("unknown model name: " ++ name)) := by
  rw [get_model, if_neg h]

theorem get_model_ok {P F : Type} {name : String} {alg alg2 : MLAlg P F}
    (h : get_model name alg = .ok alg2) : alg2 = alg := by
  rw [get_model] at h
  split_ifs at h
  exact (Except.ok.inj h).symm

theorem emitPredReport_initLoop {P : Type} (p0 : P) :
    emitPredReport (initLoop p0) = .error .nameError := rfl

theorem main_ok_elim {P F : Type} {alg : MLAlg P F} {cfg : Config}
    {trainData testData : List (F × ℚ)} {perm : List (F × ℚ) → List (F × ℚ)}
    {p0 : P} {R : RunResult P F}
    (hok : main alg cfg trainData testData perm p0 = .ok R) :
    ∃ st pr, runFrom (mkEnv alg cfg trainData testData perm p0) 0 cfg.epoch
        (initLoop p0) = .ok st ∧
      emitPredReport st = .ok pr ∧
      R = { trainSplit := (splitData perm trainData).1,
            validSplit := (splitData perm trainData).2,
            epochCsv := { header := epochHeaderCols, rows := st.rows },
            predCsv := pr.1, bestRec := pr.2,
            snapshot := st.tracker.snapshot, saves := st.tracker.saves,
            finalParams := st.params } := by
  rw [main] at hok
  split at hok
  · exact absurd hok (by simp)
  case _ dsTr heq1 =>
    split at hok
    · exact absurd hok (by simp)
    case _ dsTe heq2 =>
      split at hok
      · exact absurd hok (by simp)
      case _ alg2 heq3 =>
        have e1 : dsTr = trainData := get_dataset_ok heq1
        have e2 : dsTe = testData := get_dataset_ok heq2
        have e3 : alg2 = alg := get_model_ok heq3
        subst e1
        subst e2
        subst e3
        split at hok
        · exact absurd hok (by simp)
        case _ st heq4 =>
          split at hok
          · exact absurd hok (by simp)
          case _ pr heq5 =>
            exact ⟨st, pr, heq4, heq5, (Except.ok.inj hok).symm⟩

theorem runFrom_zero {P F : Type} (env : RunEnv P F) (i : ℕ) (st : LoopState P) :
    runFrom env i 0 st = .ok st := rfl

theorem main_ok_char {P F : Type} {alg : MLAlg P F} {cfg : Config}
    {trainData testData : List (F × ℚ)} {perm : List (F × ℚ) → List (F × ℚ)}
    {p0 : P} {R : RunResult P F}
    (hok : main alg cfg trainData testData perm p0 = .ok R) :
    ∃ n, cfg.epoch = n + 1 ∧
      (mkEnv alg cfg trainData testData perm p0).trB.flatten ≠ [] ∧
      (mkEnv alg cfg trainData testData perm p0).vaB.flatten ≠ [] ∧
      (mkEnv alg cfg trainData testData perm p0).teB.flatten ≠ [] ∧
      ∃ pr, emitPredReport (stateAt (mkEnv alg cfg trainData testData perm p0)
          cfg.epoch) = .ok pr ∧
        R = { trainSplit := (splitData perm trainData).1,
              validSplit := (splitData perm trainData).2,
              epochCsv := { header := epochHeaderCols,
                            rows := (stateAt (mkEnv alg cfg trainData testData perm p0) cfg.epoch).rows },
              predCsv := pr.1, bestRec := pr.2,
              snapshot := (stateAt (mkEnv alg cfg trainData testData perm p0) cfg.epoch).tracker.snapshot,
              saves := (stateAt (mkEnv alg cfg trainData testData perm p0) cfg.epoch).tracker.saves,
              finalParams := (stateAt (mkEnv alg cfg trainData testData perm p0) cfg.epoch).params } := by
  obtain ⟨st, pr, hrf, hemit, hR⟩ := main_ok_elim hok
  cases hn : cfg.epoch with
  | zero =>
    rw [hn, runFrom_zero] at hrf
    have hst : st = initLoop p0 := (Except.ok.inj hrf).symm
    rw [hst, emitPredReport_initLoop] at hemit
    exact absurd hemit (by simp)
  | succ n =>
    rw [hn] at hrf
    obtain ⟨hTr, hVa, hTe⟩ := runFrom_ok_nonempty _ _ _ _ _ hrf
    have hchar := runFrom_stateAt (mkEnv alg cfg trainData testData perm p0)
      hTr hVa hTe (n + 1) 0
    rw [stateAt_zero, Nat.zero_add] at hchar
    have henvp : (mkEnv alg cfg trainData testData perm p0).p0 = p0 := rfl
    rw [henvp] at hchar
    have hst : st = stateAt (mkEnv alg cfg trainData testData perm p0) (n + 1) :=
      (Except.ok.inj (hchar.symm.trans hrf)).symm
    subst hst
    exact ⟨n, rfl, hTr, hVa, hTe, pr, hemit, hR⟩

/-- C1, counterexample: as stated the claim is false on the code.  At the
input sequence `[1500]`, epoch 0's validation MAE (1500) is vacuously
strictly less than every validation MAE seen so far (there are none), so the
claim predicts `became-best = true`; but the tracker compares against the
sentinel 1000 (main0.py lines 216 and 254) and returns false. -/
theorem C1_tracker_cex :
    ¬ (((observeSeq [1500]).getD 0 false = true) ↔ becameBestPerSpec [1500] 0) := by
  intro h
  have h2 : becameBestPerSpec [1500] 0 := by
    intro j hj
    exact absurd hj (Nat.not_lt_zero j)
  have h3 := h.mpr h2
  have h4 : observeSeq [1500] = [false] := by decide
  rw [h4] at h3
  simp at h3

/-- C1 (amended): an epoch becomes the best iff its validation MAE is
strictly less than the minimum of the sentinel 1000 and the validation MAEs
of the earlier epochs (equivalently, strictly less than the tracker's
current `best`); on improvement the tracker updates `best`, persists the
candidate state (overwriting the snapshot) and records `best_epoch`,
`best_test`, `best_mae`, `best_train_mae`; otherwise it mutates and persists
nothing.  For the sequence `[5, 3, 4, 2]` the outcomes are
`[true, true, false, true]` and the final `best_epoch` is 3. -/
theorem C1_tracker_amended {P : Type} :
    (∀ (vals : List ℚ) (i : ℕ), i < vals.length →
        ((observeSeq vals).getD i false = true ↔ vals.getD i 0 < bestBefore vals i))
    ∧ (∀ (s : Tracker P) (i : ℕ) (v : ℚ) (c : P) (pt : List ℚ) (mt mtr : ℚ),
        ((observe s i v c pt mt mtr).2 = true ↔ v < s.best)
        ∧ (v < s.best → (observe s i v c pt mt mtr).1 =
            { best := v, snapshot := some c, saves := s.saves + 1,
              record := some ⟨i, pt, mt, mtr⟩ })
        ∧ (¬ v < s.best → (observe s i v c pt mt mtr).1 = s))
    ∧ observeSeq [5, 3, 4, 2] = [true, true, false, true]
    ∧ (finalTracker [5, 3, 4, 2]).record.map BestRecord.best_epoch = some 3 := by
  refine ⟨?_, ?_, by decide, by decide⟩
  · intro vals i h
    exact observeAll_getD vals initTracker 0 i h
  · intro s i v c pt mt mtr
    by_cases hv : v < s.best
    · rw [observe_lt s i v c pt mt mtr hv]
      exact ⟨by simp [hv], fun _ => rfl, fun h => absurd hv h⟩
    · rw [observe_not_lt s i v c pt mt mtr hv]
      exact ⟨by simp [hv], fun h => absurd h hv, fun _ => rfl⟩

/-- C1, witness: the amended theorem applied at the sequence `[5, 3, 4, 2]`
and epoch 3, whose MAE 2 is below the running best 3. -/
theorem C1_tracker_witness : (observeSeq [5, 3, 4, 2]).getD 3 false = true :=
  ((C1_tracker_amended (P := Unit)).1 [5, 3, 4, 2] 3 (by decide)).mpr (by decide)

/-- C5: an evaluation pass over a data stream whose batches contain no
examples (in particular, zero batches) fails with the empty-input error
rather than returning metrics: in main0.py `test` the `np.hstack` at line
167 raises on the empty collection before any metric or report is
produced. -/
theorem C5_empty_input {P F : Type} (alg : MLAlg P F) (p : P)
    (bs : List (List (F × ℚ))) (h : bs.flatten = []) :
    test alg p bs = .error .emptyInput := by
  rw [test, evalOutputs, h]
  rfl

/-- C5, witness: the zero-batch stream. -/
theorem C5_empty_input_witness :
    test wAlg () ([] : List (List (Unit × ℚ))) = .error .emptyInput :=
  C5_empty_input wAlg () [] rfl

/-- C7: in training mode, every batch triggers exactly the five steps
prediction, loss, gradient clearing, backpropagation, optimizer step, in
this order (main0.py lines 136-142); the parameters are updated exactly once
per batch, folded in stream order, predictions are computed from the
parameters before that batch's update, and targets are collected in stream
order. -/
theorem C7_training_steps {P F : Type} (alg : MLAlg P F) (p : P)
    (bs : List (List (F × ℚ))) :
    perBatchEvents = [Event.evPredict, Event.evLoss, Event.evZeroGrad,
      Event.evBackward, Event.evStep]
    ∧ (trainPass alg p bs).2.1 = (bs.map fun _ => perBatchEvents).flatten
    ∧ ((trainPass alg p bs).2.1).count Event.evStep = bs.length
    ∧ (trainPass alg p bs).1 = bs.foldl alg.update p
    ∧ (trainPass alg p bs).2.2.1 = (bs.flatten).map Prod.snd
    ∧ ∀ (b : List (F × ℚ)) (rest : List (List (F × ℚ))),
        (trainPass alg p (b :: rest)).2.2.2 =
          b.map (fun ex => alg.predict p ex.1) ++
            (trainPass alg (alg.update p b) rest).2.2.2 :=
  ⟨rfl, trainPass_events alg bs p, trainPass_count_step alg bs p,
   trainPass_fst alg bs p, trainPass_targets alg bs p, fun _ _ => rfl⟩

/-- C8: the Batch Runner in evaluation mode leaves the parameters unchanged
(main0.py `test` runs under `model.eval()` and `torch.no_grad()`, lines
156-159), and running it twice in a row with no intervening training-mode
call yields identical (targets, predictions) sequences. -/
theorem C8_eval_idempotent {P F : Type} (alg : MLAlg P F) (p : P)
    (bs : List (List (F × ℚ))) :
    (batchRunner alg p Mode.evaluation bs).1 = p
    ∧ (batchRunner alg (batchRunner alg p Mode.evaluation bs).1
        Mode.evaluation bs).2 = (batchRunner alg p Mode.evaluation bs).2 :=
  ⟨rfl, rfl⟩

/-- C9: an unrecognized dataset or model name makes the run fail fast with
the configuration error raised by the lookup (main0.py lines 47 and 104),
before any training epoch starts; the whole run returns that error, so there
is no retry and no partial training or report. -/
theorem C9_config_error {P F : Type} (alg : MLAlg P F) (cfg : Config)
    (trainData testData : List (F × ℚ)) (perm : List (F × ℚ) → List (F × ℚ))
    (p0 : P) :
    (cfg.dataset_name ∉ datasetNames →
      main alg cfg trainData testData perm p0 =
        .error (.configError ("unknown dataset name: " ++ cfg.dataset_name)))
    ∧ (cfg.dataset_name ∈ datasetNames → cfg.model_name ∉ modelNames →
      main alg cfg trainData testData perm p0 =
        .error (.configError ("unknown model name: " ++ cfg.model_name))) := by
  constructor
  · intro h
    rw [main, get_dataset_not_mem _ _ h]
  · intro h1 h2
    rw [main, get_dataset_mem _ _ h1, get_dataset_mem _ _ h1,
      get_model_not_mem _ _ h2]

/-- C9, witness: the unknown dataset name "imagenet" and the unknown model
name "transformer" both abort the run with the lookup's error. -/
theorem C9_config_error_witness :
    main wAlg wBadCfg wTrain wTest id () =
      .error (.configError ("unknown dataset name: " ++ wBadCfg.dataset_name))
    ∧ main wAlg wBadModelCfg wTrain wTest id () =
      .error (.configError ("unknown model name: " ++ wBadModelCfg.model_name)) :=
  ⟨(C9_config_error wAlg wBadCfg wTrain wTest id ()).1 (by decide),
   (C9_config_error wAlg wBadModelCfg wTrain wTest id ()).2 (by decide) (by decide)⟩

/-- C6: the train/validation split cuts a permutation of the training data
at `int(len * 0.9)` (main0.py lines 192-196): the training part has exactly
`floor(0.9 * N)` examples, the validation part the remaining
`N - floor(0.9 * N)`, together they partition the permuted data, and any
successful run's recorded splits are exactly this one split, computed once
before the epoch loop. -/
theorem C6_split_sizes {P F : Type} (perm : List (F × ℚ) → List (F × ℚ))
    (data : List (F × ℚ)) (hperm : (perm data).length = data.length) :
    (splitData perm data).1.length = 9 * data.length / 10
    ∧ (splitData perm data).2.length = data.length - 9 * data.length / 10
    ∧ (splitData perm data).1 ++ (splitData perm data).2 = perm data
    ∧ ((9 * data.length / 10 : ℕ) : ℤ) = ⌊((9 : ℚ) / 10) * (data.length : ℚ)⌋
    ∧ ∀ (alg : MLAlg P F) (cfg : Config) (testData : List (F × ℚ)) (p0 : P)
        (R : RunResult P F), main alg cfg data testData perm p0 = .ok R →
          R.trainSplit = (splitData perm data).1
          ∧ R.validSplit = (splitData perm data).2 := by
  refine ⟨?_, ?_, ?_, ?_, ?_⟩
  · simp [splitData, hperm]
    omega
  · simp [splitData, hperm]
  · exact List.take_append_drop _ _
  · have hcast : ((9 : ℚ) / 10) * (data.length : ℚ) =
        ((9 * data.length : ℕ) : ℚ) / ((10 : ℕ) : ℚ) := by
      push_cast
      ring
    rw [hcast, Rat.floor_natCast_div_natCast]
    omega
  · intro alg cfg testData p0 R hok
    obtain ⟨st, pr, _, _, hR⟩ := main_ok_elim hok
    rw [hR]
    exact ⟨rfl, rfl⟩

/-- C6, witness: ten training examples split 9/1 under the identity
permutation. -/
theorem C6_split_sizes_witness :
    (splitData id wTrain).1.length = 9 * wTrain.length / 10
    ∧ (splitData id wTrain).2.length = wTrain.length - 9 * wTrain.length / 10 :=
  ⟨(C6_split_sizes (P := Unit) id wTrain rfl).1,
   (C6_split_sizes (P := Unit) id wTrain rfl).2.1⟩

theorem range_map_getD {α : Type} (f : ℕ → α) (k j : ℕ) (hj : j < k) (d : α) :
    ((List.range k).map f).getD j d = f j := by
  rw [List.getD_eq_getElem?_getD, List.getElem?_map, List.getElem?_range hj]
  rfl

theorem stateAt_rows {P F : Type} (env : RunEnv P F) (k : ℕ) :
    (stateAt env k).rows = (List.range k).map (rowAt env) := rfl

theorem stateAt_tracker {P F : Type} (env : RunEnv P F) (k : ℕ) :
    (stateAt env k).tracker = trackerAt env k := rfl

theorem rows_mem_lt_1000 {P F : Type} (env : RunEnv P F) (k : ℕ)
    (h : ∃ r ∈ (stateAt env k).rows, r.mae_val < 1000) :
    ∃ i, i < k ∧ maeVaAt env i < 1000 := by
  obtain ⟨r, hmem, hlt⟩ := h
  rw [stateAt_rows] at hmem
  obtain ⟨i, hi, hri⟩ := List.mem_map.mp hmem
  exact ⟨i, List.mem_range.mp hi, by rw [← hri] at hlt; exact hlt⟩

/-- C2, counterexample: as stated the claim is false on the code.  The run
over `envB` (all targets 2000, so validation MAE 2000 for its single epoch)
completes the epoch loop, yet zero snapshots exist on durable storage and
`torch.save` was never called, because 2000 never beats the sentinel
`best = 1000` of main0.py line 216. -/
theorem C2_snapshot_cex :
    runFrom envB 0 1 (initLoop ()) = .ok stB ∧ stB.tracker.snapshot = none
    ∧ stB.tracker.saves = 0 :=
  ⟨by with_unfolding_all rfl, rfl, rfl⟩

/-- C2 (amended): for every run that completes the epoch loop in which at
least one epoch's validation MAE is strictly below the sentinel 1000,
exactly one Best-State Snapshot exists on durable storage (the `Option`
modelling the single overwritten file is `some`), and it holds the
parameters of the first epoch that achieved the minimum validation MAE
(ties broken toward the earliest epoch by the strict `<` comparison); the
tracker's best validation error is initialized to the sentinel 1000. -/
theorem C2_snapshot_amended {P F : Type} (env : RunEnv P F) (n : ℕ)
    (st : LoopState P)
    (hok : runFrom env 0 n (initLoop env.p0) = .ok st)
    (hsome : ∃ r ∈ st.rows, r.mae_val < 1000) :
    st.tracker.snapshot.isSome
    ∧ ∃ b, st.tracker.record = some b
      ∧ st.tracker.snapshot = some (pAt env (b.best_epoch + 1))
      ∧ b.best_epoch < n
      ∧ (∀ r2 ∈ st.rows, st.tracker.best ≤ r2.mae_val)
      ∧ (st.rows.map EpochRow.mae_val).getD b.best_epoch 1000 = st.tracker.best
      ∧ ∀ j, j < b.best_epoch →
          st.tracker.best < (st.rows.map EpochRow.mae_val).getD j 1000 := by
  cases n with
  | zero =>
    rw [runFrom_zero] at hok
    have hst : st = initLoop env.p0 := (Except.ok.inj hok).symm
    subst hst
    obtain ⟨r, hmem, _⟩ := hsome
    exact absurd hmem (List.not_mem_nil r)
  | succ m =>
    obtain ⟨hTr, hVa, hTe⟩ := runFrom_ok_nonempty env 0 m _ _ hok
    have hchar := runFrom_stateAt env hTr hVa hTe (m + 1) 0
    rw [stateAt_zero, Nat.zero_add] at hchar
    have hst : st = stateAt env (m + 1) := (Except.ok.inj (hchar.symm.trans hok)).symm
    subst hst
    obtain ⟨i, hik, hilt⟩ := rows_mem_lt_1000 env (m + 1) hsome
    rcases trackerAt_inv env (m + 1) with ⟨hge, _⟩ | hinv
    · exact absurd hilt (not_lt.mpr (hge i hik))
    · obtain ⟨b, h1, h2, h3, h4, h5, h6, h7, h8, h9, h10, h11⟩ := hinv
      rw [stateAt_tracker]
      refine ⟨by rw [h2]; rfl, b, h1, h2, h4, ?_, ?_, ?_⟩
      · intro r2 hmem
        rw [stateAt_rows] at hmem
        obtain ⟨j, hj, hrj⟩ := List.mem_map.mp hmem
        rw [← hrj]
        exact h8 j (List.mem_range.mp hj)
      · rw [stateAt_rows, List.map_map]
        rw [range_map_getD (EpochRow.mae_val ∘ rowAt env) (m + 1) b.best_epoch h4 1000]
        exact h5
      · intro j hj
        rw [stateAt_rows, List.map_map]
        rw [range_map_getD (EpochRow.mae_val ∘ rowAt env) (m + 1) j
          (lt_trans hj h4) 1000]
        exact h7 j hj

/-- C2, witness: the amended theorem applied to the run over `envG`
(validation MAE 1 at epoch 0): one snapshot exists. -/
theorem C2_snapshot_witness : stG.tracker.snapshot.isSome :=
  (C2_snapshot_amended envG 1 stG (by with_unfolding_all rfl)
    ⟨rowG, by with_unfolding_all decide, by with_unfolding_all decide⟩).1

/-- C3: for every run that completes without error with epoch budget
`cfg.epoch`, the emitted Epoch Report has exactly the ten columns
`epoch, mae_train, mae_val, mae_test, r2_train, r2_val, r2_test,
rmse_train, rmse_val, rmse_test` and no index column (each row serializes
to exactly as many cells as the header has), one row per completed epoch
with epoch indices `0 .. cfg.epoch - 1` in increasing order without gaps;
row `i` is the metric row of epoch `i`, and its three RMSE cells are the
square roots of the mean squared errors computed for the train, validation
and test splits at that epoch. -/
theorem C3_epoch_report {P F : Type} (alg : MLAlg P F) (cfg : Config)
    (trainData testData : List (F × ℚ)) (perm : List (F × ℚ) → List (F × ℚ))
    (p0 : P) (R : RunResult P F)
    (hok : main alg cfg trainData testData perm p0 = .ok R) :
    R.epochCsv.header = ["epoch", "mae_train", "mae_val", "mae_test",
      "r2_train", "r2_val", "r2_test", "rmse_train", "rmse_val", "rmse_test"]
    ∧ R.epochCsv.rows.length = cfg.epoch
    ∧ R.epochCsv.rows.map EpochRow.epoch = List.range cfg.epoch
    ∧ ∀ i (h : i < R.epochCsv.rows.length),
        R.epochCsv.rows.get ⟨i, h⟩ =
          rowAt (mkEnv alg cfg trainData testData perm p0) i
        ∧ epochRowCells (R.epochCsv.rows.get ⟨i, h⟩) =
            [(i : ℝ),
             ((maeTrAt (mkEnv alg cfg trainData testData perm p0) i : ℚ) : ℝ),
             ((maeVaAt (mkEnv alg cfg trainData testData perm p0) i : ℚ) : ℝ),
             ((maeTeAt (mkEnv alg cfg trainData testData perm p0) i : ℚ) : ℝ),
             ((r2TrAt (mkEnv alg cfg trainData testData perm p0) i : ℚ) : ℝ),
             ((r2VaAt (mkEnv alg cfg trainData testData perm p0) i : ℚ) : ℝ),
             ((r2TeAt (mkEnv alg cfg trainData testData perm p0) i : ℚ) : ℝ),
             Real.sqrt ((mseTrAt (mkEnv alg cfg trainData testData perm p0) i : ℚ) : ℝ),
             Real.sqrt ((mseVaAt (mkEnv alg cfg trainData testData perm p0) i : ℚ) : ℝ),
             Real.sqrt ((mseTeAt (mkEnv alg cfg trainData testData perm p0) i : ℚ) : ℝ)]
        ∧ (epochRowCells (R.epochCsv.rows.get ⟨i, h⟩)).length =
            R.epochCsv.header.length := by
  obtain ⟨n, hn, hTr, hVa, hTe, pr, hemit, hR⟩ := main_ok_char hok
  have hhd : R.epochCsv.header = epochHeaderCols := by rw [hR]
  have hrows : R.epochCsv.rows = (List.range cfg.epoch).map
      (rowAt (mkEnv alg cfg trainData testData perm p0)) := by
    rw [hR]
    rfl
  refine ⟨hhd, ?_, ?_, ?_⟩
  · rw [hrows, List.length_map, List.length_range]
  · rw [hrows, List.map_map]
    have hcomp : (EpochRow.epoch ∘ rowAt (mkEnv alg cfg trainData testData perm p0)) =
        fun i => i := funext fun i => rfl
    rw [hcomp]
    exact List.map_id _
  · intro i h
    have hi2 : i < ((List.range cfg.epoch).map
        (rowAt (mkEnv alg cfg trainData testData perm p0))).length := by
      rw [← hrows]
      exact h
    have hget : R.epochCsv.rows.get ⟨i, h⟩ =
        rowAt (mkEnv alg cfg trainData testData perm p0) i := by
      rw [List.get_eq_getElem, List.getElem_of_eq hrows h, List.getElem_map]
      congr 1
      simp
    exact ⟨hget, by rw [hget]; rfl, by rw [hget, hhd]; rfl⟩

/-- C3, witness: the one-epoch witness run emits exactly one row. -/
theorem C3_epoch_report_witness : wRes.epochCsv.rows.length = wCfg.epoch :=
  (C3_epoch_report wAlg wCfg wTrain wTest id () wRes (by with_unfolding_all rfl)).2.1

theorem emitPredReport_eval {P : Type} (st : LoopState P) (tgts : List ℚ)
    (hl : st.lastT = some tgts) :
    emitPredReport st = (match st.tracker.record with
      | none => .error .unassignedBest
      | some r => .ok ({ header := ["ground_truth", "prediction"],
                         ground_truth := tgts, prediction := r.best_test }, r)) := by
  rw [emitPredReport, hl]

/-- C4: for every run that completes without error, the emitted Prediction
Report has header exactly `ground_truth, prediction` and no index column,
its ground-truth column is the test targets (one row per test example, a
count equal to the test-split size and hence constant across epochs), and
its prediction column is `best_test`, the test predictions recorded at the
best epoch, also of length the test-split size. -/
theorem C4_pred_report {P F : Type} (alg : MLAlg P F) (cfg : Config)
    (trainData testData : List (F × ℚ)) (perm : List (F × ℚ) → List (F × ℚ))
    (p0 : P) (R : RunResult P F)
    (hok : main alg cfg trainData testData perm p0 = .ok R) :
    R.predCsv.header = ["ground_truth", "prediction"]
    ∧ R.predCsv.ground_truth = testData.map Prod.snd
    ∧ R.predCsv.ground_truth.length = testData.length
    ∧ R.predCsv.prediction = R.bestRec.best_test
    ∧ R.predCsv.prediction =
        tePredsAt (mkEnv alg cfg trainData testData perm p0) R.bestRec.best_epoch
    ∧ R.predCsv.prediction.length = testData.length
    ∧ R.bestRec.best_epoch < cfg.epoch := by
  obtain ⟨n, hn, hTr, hVa, hTe, pr, hemit, hR⟩ := main_ok_char hok
  have hlast : (stateAt (mkEnv alg cfg trainData testData perm p0) cfg.epoch).lastT =
      some (teTgtsAt (mkEnv alg cfg trainData testData perm p0)) := by
    rw [hn]
    simp [stateAt]
  rw [emitPredReport_eval _ _ hlast, stateAt_tracker] at hemit
  have hflat : (mkEnv alg cfg trainData testData perm p0).teB.flatten = testData :=
    chunks_flatten_of_ne cfg.batch_size testData hTe
  rcases trackerAt_inv (mkEnv alg cfg trainData testData perm p0) cfg.epoch with
    ⟨_, hinit⟩ | ⟨b, h1, h2, h3, h4, h5, h6, h7, h8, h9, h10, h11⟩
  · rw [hinit] at hemit
    exact absurd hemit (by simp [initTracker])
  · rw [h1] at hemit
    have hpr := Except.ok.inj hemit
    have hRp : R.predCsv = pr.1 := by rw [hR]
    have hRb : R.bestRec = pr.2 := by rw [hR]
    have hp1 : pr.1 = { header := ["ground_truth", "prediction"],
                        ground_truth := teTgtsAt (mkEnv alg cfg trainData testData perm p0),
                        prediction := b.best_test } := by rw [← hpr]
    have hp2 : pr.2 = b := by rw [← hpr]
    have htg : teTgtsAt (mkEnv alg cfg trainData testData perm p0) =
        testData.map Prod.snd := by
      rw [teTgtsAt, hflat]
    refine ⟨?_, ?_, ?_, ?_, ?_, ?_, ?_⟩
    · rw [hRp, hp1]
    · rw [hRp, hp1, htg]
    · rw [hRp, hp1, htg, List.length_map]
    · rw [hRp, hp1, hRb, hp2]
    · rw [hRp, hp1, hRb, hp2, h9]
    · rw [hRp, hp1, h9, tePredsAt, evalTeAt, evalOutputs]
      show ((mkEnv alg cfg trainData testData perm p0).teB.flatten.map _).length = _
      rw [List.length_map, hflat]
    · rw [hRb, hp2]
      exact hn ▸ h4

/-- C4, witness: the one-epoch witness run's prediction report. -/
theorem C4_pred_report_witness : wRes.predCsv.header = ["ground_truth", "prediction"] :=
  (C4_pred_report wAlg wCfg wTrain wTest id () wRes (by with_unfolding_all rfl)).1

/-- C10: for every run whose epochs all have validation MAE at or above the
initial sentinel 1000, no epoch ever becomes best: nothing is ever saved to
durable storage (`torch.save` is called zero times), the best-epoch record
is never assigned, the post-loop report emission fails (it references the
never-assigned best-epoch data of main0.py lines 266-268), and consequently
the run produces no result — no Prediction Report exists. -/
theorem C10_sentinel_edge {P F : Type} (alg : MLAlg P F) (cfg : Config)
    (trainData testData : List (F × ℚ)) (perm : List (F × ℚ) → List (F × ℚ))
    (p0 : P) (st : LoopState P)
    (hok : runFrom (mkEnv alg cfg trainData testData perm p0) 0 cfg.epoch
      (initLoop p0) = .ok st)
    (hall : ∀ r ∈ st.rows, 1000 ≤ r.mae_val) :
    st.tracker.snapshot = none ∧ st.tracker.saves = 0 ∧ st.tracker.record = none
    ∧ (∃ er, emitPredReport st = .error er)
    ∧ ∀ R : RunResult P F, main alg cfg trainData testData perm p0 ≠ .ok R := by
  have hmain : ∀ R : RunResult P F, main alg cfg trainData testData perm p0 ≠ .ok R := by
    intro R hm
    obtain ⟨st2, pr2, hrf2, hemit2, _⟩ := main_ok_elim hm
    have hst2 : st2 = st := (Except.ok.inj (hok.symm.trans hrf2)).symm
    subst hst2
    cases hn : cfg.epoch with
    | zero =>
      rw [hn, runFrom_zero] at hok
      have hst : st2 = initLoop p0 := (Except.ok.inj hok).symm
      rw [hst, emitPredReport_initLoop] at hemit2
      exact absurd hemit2 (by simp)
    | succ m =>
      rw [hn] at hok
      obtain ⟨hTr, hVa, hTe⟩ := runFrom_ok_nonempty _ 0 m _ _ hok
      have hchar := runFrom_stateAt (mkEnv alg cfg trainData testData perm p0)
        hTr hVa hTe (m + 1) 0
      rw [stateAt_zero, Nat.zero_add] at hchar
      have hst : st2 = stateAt (mkEnv alg cfg trainData testData perm p0) (m + 1) :=
        (Except.ok.inj (hchar.symm.trans hok)).symm
      subst hst
      rcases trackerAt_inv (mkEnv alg cfg trainData testData perm p0) (m + 1) with
        ⟨_, hinit⟩ | ⟨b, h1, _, _, h4, h5, h6, _, _, _, _, _⟩
      · have hlast : (stateAt (mkEnv alg cfg trainData testData perm p0)
            (m + 1)).lastT = some (teTgtsAt (mkEnv alg cfg trainData testData perm p0)) := by
          simp [stateAt]
        rw [emitPredReport_eval _ _ hlast, stateAt_tracker, hinit] at hemit2
        exact absurd hemit2 (by simp [initTracker])
      · have hbrow : rowAt (mkEnv alg cfg trainData testData perm p0) b.best_epoch ∈
            (stateAt (mkEnv alg cfg trainData testData perm p0) (m + 1)).rows := by
          rw [stateAt_rows]
          exact List.mem_map_of_mem _ (List.mem_range.mpr h4)
        have := hall _ hbrow
        have hlt : maeVaAt (mkEnv alg cfg trainData testData perm p0) b.best_epoch <
            1000 := h5 ▸ h6
        exact absurd hlt (not_lt.mpr this)
  cases hn : cfg.epoch with
  | zero =>
    rw [hn, runFrom_zero] at hok
    have hst : st = initLoop p0 := (Except.ok.inj hok).symm
    subst hst
    exact ⟨rfl, rfl, rfl, ⟨.nameError, rfl⟩, hmain⟩
  | succ m =>
    rw [hn] at hok
    obtain ⟨hTr, hVa, hTe⟩ := runFrom_ok_nonempty _ 0 m _ _ hok
    have hchar := runFrom_stateAt (mkEnv alg cfg trainData testData perm p0)
      hTr hVa hTe (m + 1) 0
    rw [stateAt_zero, Nat.zero_add] at hchar
    have hst : st = stateAt (mkEnv alg cfg trainData testData perm p0) (m + 1) :=
      (Except.ok.inj (hchar.symm.trans hok)).symm
    subst hst
    rcases trackerAt_inv (mkEnv alg cfg trainData testData perm p0) (m + 1) with
      ⟨_, hinit⟩ | ⟨b, h1, _, _, h4, h5, h6, _, _, _, _, _⟩
    · have hlast : (stateAt (mkEnv alg cfg trainData testData perm p0)
          (m + 1)).lastT = some (teTgtsAt (mkEnv alg cfg trainData testData perm p0)) := by
        simp [stateAt]
      refine ⟨?_, ?_, ?_, ?_, hmain⟩
      · rw [stateAt_tracker, hinit]
        rfl
      · rw [stateAt_tracker, hinit]
        rfl
      · rw [stateAt_tracker, hinit]
        rfl
      · refine ⟨.unassignedBest, ?_⟩
        rw [emitPredReport_eval _ _ hlast, stateAt_tracker, hinit]
        rfl
    · have hbrow : rowAt (mkEnv alg cfg trainData testData perm p0) b.best_epoch ∈
          (stateAt (mkEnv alg cfg trainData testData perm p0) (m + 1)).rows := by
        rw [stateAt_rows]
        exact List.mem_map_of_mem _ (List.mem_range.mpr h4)
      have := hall _ hbrow
      have hlt : maeVaAt (mkEnv alg cfg trainData testData perm p0) b.best_epoch <
          1000 := h5 ▸ h6
      exact absurd hlt (not_lt.mpr this)

/-- C10, witness: the sentinel-edge run (all targets 2000, validation MAE
2000 at its single epoch): nothing saved, best record never assigned. -/
theorem C10_sentinel_edge_witness :
    stB.tracker.snapshot = none ∧ stB.tracker.saves = 0 ∧ stB.tracker.record = none :=
  ⟨(C10_sentinel_edge wAlg wCfg wTrainB wTestB id () stB (by with_unfolding_all rfl)
      (by with_unfolding_all decide)).1,
   (C10_sentinel_edge wAlg wCfg wTrainB wTestB id () stB (by with_unfolding_all rfl)
      (by with_unfolding_all decide)).2.1,
   (C10_sentinel_edge wAlg wCfg wTrainB wTestB id () stB (by with_unfolding_all rfl)
      (by with_unfolding_all decide)).2.2.1⟩

end GRU
